import Mathlib

/-!
Verification of `lib/ansible/modules/packaging/os/homebrew_services.py`
against its natural-language specification.

The module is shallowly embedded: the compiled regex character classes
become `Char → Bool` predicates, the `HomebrewService` object becomes an
explicit state record threaded through the per-service loop, the Python
exception used for control flow becomes an explicit `raised : Bool`
component, and each `module.run_command` invocation is logged in the
state (field `spawned`) with its error stream supplied by an environment
function `errOf`.

Modelling conventions, noted once here:
  * The regex class escape `\w` is modelled on its ASCII fragment
    `[A-Za-z0-9_]`, and `\s` by `Char.isWhitespace`; both the source and
    the specification use the same escapes, so the comparison between
    them is unaffected by the extension of these classes beyond ASCII.
  * `os.path.sep` is the POSIX separator `/` (the module targets macOS).
  * Python `str.strip()` is modelled by `pyStrip` (drop leading and
    trailing whitespace).
  * Python string formatting such as `"Invalid package: {0}.".format(p)`
    is modelled by string concatenation.
-/

namespace HomebrewServices

/-! ### Character classes

`_create_regex_group` joins the non-comment fragment of each line of the
class-constant string and wraps it in `[^...]`; `valid_*` then report
"no invalid character found".  The three compiled classes are:

  * `INVALID_PATH_REGEX      = [^\w\s:/.-]`   (from `VALID_PATH_CHARS`)
  * `INVALID_BREW_PATH_REGEX = [^\w\s/.-]`    (from `VALID_BREW_PATH_CHARS`)
  * `INVALID_PACKAGE_REGEX   = [^\w./\+-:@]`  (from `VALID_PACKAGE_CHARS`)

In the package class the fragment `\+-:` is a character RANGE from `+`
(code 43) to `:` (code 58): `+ , - . / 0-9 :`.  The membership
predicates below are the complements of the three compiled classes. -/

/-- The `\w` regex class escape, on its ASCII fragment `[A-Za-z0-9_]`. -/
def isWordChar (c : Char) : Bool := c.isAlphanum || c == '_'

/-- Membership in the class complement of `INVALID_PATH_REGEX`,
i.e. the class `[\w\s:/.-]`. -/
def isValidPathChar (c : Char) : Bool :=
  isWordChar c || c.isWhitespace || c == ':' || c == '/' || c == '.' || c == '-'

/-- Membership in the class complement of `INVALID_BREW_PATH_REGEX`,
i.e. the class `[\w\s/.-]` (note: no colon). -/
def isValidBrewPathChar (c : Char) : Bool :=
  isWordChar c || c.isWhitespace || c == '/' || c == '.' || c == '-'

/-- Membership in the class complement of `INVALID_PACKAGE_REGEX`,
i.e. the class `[\w./\+-:@]`, in which `\+-:` is the range `+`..`:`
(codes 43 to 58). -/
def isValidPackageChar (c : Char) : Bool :=
  isWordChar c || c == '.' || c == '/' || ('+' ≤ c && c ≤ ':') || c == '@'

/-- Argument to `HomebrewService.valid_path`: either a string (split on
colons later) or an explicit list of directories, whose elements flow
into `valid_brew_path` and may therefore be `None`. -/
inductive PathArg where
  | str : String → PathArg
  | dirs : List (Option String) → PathArg

/-- Model of `HomebrewService.valid_brew_path`: `None` is accepted, a string is
accepted iff `INVALID_BREW_PATH_REGEX.search` finds no invalid char. -/
def valid_brew_path : Option String → Bool
  | none => true
  | some s => s.data.all isValidBrewPathChar

/-- Model of `HomebrewService.valid_path`: strings are checked against
`INVALID_PATH_REGEX`; iterables are checked elementwise with
`valid_brew_path`. -/
def valid_path : PathArg → Bool
  | .str s => s.data.all isValidPathChar
  | .dirs l => l.all valid_brew_path

/-- Model of `HomebrewService.valid_package`: `None` is accepted, a string is
accepted iff `INVALID_PACKAGE_REGEX.search` finds no invalid char. -/
def valid_package : Option String → Bool
  | none => true
  | some s => s.data.all isValidPackageChar

/-! ### Specification-side predicates (for refinement comparison only).
These follow the words of the specification, not the source. -/

/-- The character set `[\w./+\-:@]` exactly as the specification writes
it (each punctuation character literal, no range). -/
def isSpecPackageChar (c : Char) : Bool :=
  isWordChar c || c == '.' || c == '/' || c == '+' || c == '-' || c == ':' || c == '@'

/-- The per-directory set `[\w\s:/.\-]` exactly as the specification
writes it for search-path entries. -/
def isSpecDirChar (c : Char) : Bool :=
  isWordChar c || c.isWhitespace || c == ':' || c == '/' || c == '.' || c == '-'

/-- The specification regex `^[\w\s:/.\-]+$` for one search-path
directory (nonempty, every character in the set). -/
def spec_dir_matches (s : String) : Bool :=
  !s.data.isEmpty && s.data.all isSpecDirChar

/-! ### The driver state and environment -/

/-- The mutable status fields of a `HomebrewService` object
(`_setup_status_vars`), extended with `spawned`: the ordered log of
argument vectors passed to `module.run_command`. -/
structure HBState where
  failed : Bool
  changed : Bool
  changed_count : Nat
  unchanged_count : Nat
  message : String
  spawned : List (List String)

/-- Per-run inputs and environment: the resolved brew executable path,
the check-mode flag of the Ansible module, the (already `--`-prefixed)
service options, and the error stream the external world produces for a
given spawned command. -/
structure HBConfig where
  brew_path : String
  check_mode : Bool
  service_options : List String
  errOf : List String → String

/-- Python `str.strip()`: remove leading and trailing whitespace. -/
def pyStrip (s : String) : String :=
  String.mk (((s.data.dropWhile Char.isWhitespace).reverse.dropWhile
    Char.isWhitespace).reverse)

/-- The state set up by `_setup_status_vars`, with an empty spawn log. -/
def initState : HBState :=
  { failed := false, changed := false, changed_count := 0,
    unchanged_count := 0, message := "", spawned := [] }

/-- Model of `module.run_command cmd`: log the command and obtain its error
stream from the environment. -/
def runCommand (cfg : HBConfig) (st : HBState) (cmd : List String) :
    HBState × String :=
  ({ st with spawned := st.spawned ++ [cmd] }, cfg.errOf cmd)

/-- The `current_package` property setter: on an invalid name it sets
`failed`, records the message and raises `HomebrewServiceException`
(the raise is the `true` in the returned pair). -/
def set_current_package (st : HBState) (pkg : String) : HBState × Bool :=
  if !valid_package (some pkg) then
    ({ st with failed := true, message := "Invalid package: " ++ pkg ++ "." }, true)
  else (st, false)

/-- The command construction shared verbatim by
`_start_current_package`, `_stop_current_package` and
`_restart_current_package`:
`opts = [brew_path, "services", verb] + service_options + [package]`
followed by `cmd = [opt for opt in opts if opt]` (drop falsy = empty
strings). -/
def verbCmd (cfg : HBConfig) (verb pkg : String) : List String :=
  (([cfg.brew_path, "services", verb] ++ cfg.service_options) ++ [pkg]).filter
    (fun o => o != "")

/-- Model of the Python call matching
`r"^Error: Service `" + package + r"` is not started."` against `err`
from `_stop_current_package`, modelled for package names free of regex
metacharacters: the literal text up to `started` must appear at the
start of `err`, and the trailing `.` of the pattern is a regex
metacharacter requiring one further non-newline character. -/
def stop_err_noop (pkg err : String) : Bool :=
  let pre := ("Error: Service `" ++ pkg ++ "` is not started").data
  (err.data.take pre.length == pre) &&
    (match err.data.drop pre.length with
     | c :: _ => c != '\n'
     | [] => false)

/-- Model of `_start_current_package` (validation already done by the
`current_package` setter is repeated by the method itself).  Note: on a
successful start the source increments `changed_count` but does NOT set
`self.changed` (unlike the stop and restart methods). -/
def start_current_package (cfg : HBConfig) (st : HBState) (pkg : String) :
    HBState × Bool :=
  if !valid_package (some pkg) then
    ({ st with failed := true, message := "Invalid package: " ++ pkg ++ "." }, true)
  else if cfg.check_mode then
    ({ st with changed := true,
               message := "Package would be started: " ++ pkg }, true)
  else
    let r := runCommand cfg st (verbCmd cfg "start" pkg)
    if r.2 == "" then
      ({ r.1 with changed_count := r.1.changed_count + 1,
                  message := "Package started: " ++ pkg }, false)
    else
      ({ r.1 with failed := true, message := pyStrip r.2 }, true)

/-- Model of `_stop_current_package`. -/
def stop_current_package (cfg : HBConfig) (st : HBState) (pkg : String) :
    HBState × Bool :=
  if !valid_package (some pkg) then
    ({ st with failed := true, message := "Invalid package: " ++ pkg ++ "." }, true)
  else if cfg.check_mode then
    ({ st with changed := true,
               message := "Package would be stopped: " ++ pkg }, true)
  else
    let r := runCommand cfg st (verbCmd cfg "stop" pkg)
    if r.2 == "" then
      ({ r.1 with changed_count := r.1.changed_count + 1, changed := true,
                  message := "Package stopped: " ++ pkg }, false)
    else if stop_err_noop pkg r.2 then
      ({ r.1 with unchanged_count := r.1.unchanged_count + 1, changed := false,
                  message := "Package already stopped: " ++ pkg }, false)
    else
      ({ r.1 with failed := true, message := pyStrip r.2 }, true)

/-- Model of `_restart_current_package`. -/
def restart_current_package (cfg : HBConfig) (st : HBState) (pkg : String) :
    HBState × Bool :=
  if !valid_package (some pkg) then
    ({ st with failed := true, message := "Invalid package: " ++ pkg ++ "." }, true)
  else if cfg.check_mode then
    ({ st with changed := true,
               message := "Package would be restarted: " ++ pkg }, true)
  else
    let r := runCommand cfg st (verbCmd cfg "restart" pkg)
    if r.2 == "" then
      ({ r.1 with changed_count := r.1.changed_count + 1, changed := true,
                  message := "Package restarted: " ++ pkg }, false)
    else
      ({ r.1 with failed := true, message := pyStrip r.2 }, true)

/-- Model of `_start_packages`: assign `current_package` (validating setter),
then start it; a raise anywhere aborts the loop. -/
def start_packages (cfg : HBConfig) (st : HBState) : List String → HBState × Bool
  | [] => (st, false)
  | pkg :: rest =>
    let r0 := set_current_package st pkg
    if r0.2 then (r0.1, true)
    else
      let r1 := start_current_package cfg r0.1 pkg
      if r1.2 then (r1.1, true)
      else start_packages cfg r1.1 rest

/-- Model of `_stop_packages`. -/
def stop_packages (cfg : HBConfig) (st : HBState) : List String → HBState × Bool
  | [] => (st, false)
  | pkg :: rest =>
    let r0 := set_current_package st pkg
    if r0.2 then (r0.1, true)
    else
      let r1 := stop_current_package cfg r0.1 pkg
      if r1.2 then (r1.1, true)
      else stop_packages cfg r1.1 rest

/-- Model of `_restart_packages`. -/
def restart_packages (cfg : HBConfig) (st : HBState) : List String → HBState × Bool
  | [] => (st, false)
  | pkg :: rest =>
    let r0 := set_current_package st pkg
    if r0.2 then (r0.1, true)
    else
      let r1 := restart_current_package cfg r0.1 pkg
      if r1.2 then (r1.1, true)
      else restart_packages cfg r1.1 rest

/-- The three-way `state` switch of `_run`. -/
inductive SvcState where
  | started
  | stopped
  | restarted

/-- Model of `_run` on a package list (the dispatch on `self.state`). -/
def run_packages (cfg : HBConfig) (state : SvcState) (pkgs : List String) :
    HBState × Bool :=
  match state with
  | .started => start_packages cfg initState pkgs
  | .stopped => stop_packages cfg initState pkgs
  | .restarted => restart_packages cfg initState pkgs

/-- The summary step of `HomebrewService.run`: replace the message with
`Changed: N, Unchanged: M` when no failure occurred and more than one
service was tallied. -/
def hb_summary (st : HBState) : HBState :=
  if !st.failed && decide (st.changed_count + st.unchanged_count > 1) then
    { st with message := "Changed: " ++ toString st.changed_count ++
                         ", Unchanged: " ++ toString st.unchanged_count }
  else st

/-- Model of `HomebrewService.run`: call `_run`, swallow the exception, then
apply the summary step. -/
def hb_run (cfg : HBConfig) (state : SvcState) (pkgs : List String) : HBState :=
  hb_summary (run_packages cfg state pkgs).1

/-- The option preprocessing in `main`:
`["--{0}".format(o) for o in p["service_options"]]`. -/
def prep_service_options (opts : List String) : List String :=
  opts.map (fun o => "--" ++ o)

/-- The command vector built by `_current_package_is_started`.  The
source writes the Python list `["{brew_path}", "services" "list"]`: the
two adjacent string literals are concatenated by the Python lexer
(there is no comma between them), so the vector has TWO elements. -/
def services_list_cmd (brew_path : String) : List String :=
  [brew_path, "services" ++ "list"]

/-- Is `pat` a leading segment of `l`? -/
def startsWithSeq : List Char → List Char → Bool
  | [], _ => true
  | _ :: _, [] => false
  | p :: ps, c :: cs => p == c && startsWithSeq ps cs

/-- Does `pat` occur contiguously anywhere in `l`? -/
def occursIn (pat : List Char) : List Char → Bool
  | [] => startsWithSeq pat []
  | c :: cs => startsWithSeq pat (c :: cs) || occursIn pat cs

/-- Model of `re.search(r"^" + package + r".*started", line)` from
`_current_package_is_started`, modelled for package names free of regex
metacharacters: the line starts with the name and the token `started`
occurs somewhere after it. -/
def line_shows_started (pkg line : String) : Bool :=
  startsWithSeq pkg.data line.data &&
    occursIn "started".data (line.data.drop pkg.data.length)

/-- Model of `out.split("\n")` (Python semantics: split at every newline,
keeping empty fragments). -/
def splitLinesAux : List Char → List Char → List (List Char)
  | [], acc => [acc.reverse]
  | c :: cs, acc =>
    if c == '\n' then acc.reverse :: splitLinesAux cs []
    else splitLinesAux cs (c :: acc)

/-- The line scan of `_current_package_is_started` over a given stdout
text. -/
def current_package_is_started_scan (pkg out : String) : Bool :=
  (splitLinesAux out.data []).any
    (fun line => line_shows_started pkg (String.mk line))

/-! ### Shared concrete configurations used by witnesses and
counterexamples -/

/-- A resolved brew path, as in the module documentation default. -/
def brewBin : String := "/usr/local/bin/brew"

/-- Live run, no options, every spawned command succeeds silently. -/
def quietCfg : HBConfig :=
  { brew_path := brewBin, check_mode := false, service_options := [],
    errOf := fun _ => "" }

/-- Check-mode (dry-run) configuration. -/
def checkCfg : HBConfig :=
  { brew_path := brewBin, check_mode := true, service_options := [],
    errOf := fun _ => "" }

/-- Live run whose environment returns error text `boom` for any
command mentioning the service `bar`, and success otherwise. -/
def barFailsCfg : HBConfig :=
  { brew_path := brewBin, check_mode := false, service_options := [],
    errOf := fun cmd => if "bar" ∈ cmd then "boom" else "" }

/-- Live run with the prefixed form of the single service option
`verbose`. -/
def verboseCfg : HBConfig :=
  { brew_path := brewBin, check_mode := false,
    service_options := prep_service_options ["verbose"],
    errOf := fun _ => "" }

/-- Live run with the prefixed form of a single EMPTY service option. -/
def emptyOptCfg : HBConfig :=
  { brew_path := brewBin, check_mode := false,
    service_options := prep_service_options [""],
    errOf := fun _ => "" }

/-- Live stop run whose every spawned command reports the given error
stream. -/
def stopCfg (err : String) : HBConfig :=
  { brew_path := brewBin, check_mode := false, service_options := [],
    errOf := fun _ => err }

/-! ### Helper lemmas -/

/-- Two characters with equal code points are equal. -/
theorem char_eq_of_toNat (c d : Char) (h : c.toNat = d.toNat) : c = d := by
  have h1 := Char.ofNat_toNat c
  rw [h, Char.ofNat_toNat d] at h1
  exact h1.symm

/-- `Char.isDigit` in terms of code points. -/
theorem isDigit_iff (c : Char) : c.isDigit = true ↔ (48 ≤ c.toNat ∧ c.toNat ≤ 57) := by
  simp only [Char.isDigit, Bool.and_eq_true, decide_eq_true_eq, ge_iff_le]
  constructor
  · intro ⟨h1, h2⟩
    exact ⟨by exact_mod_cast h1, by exact_mod_cast h2⟩
  · intro ⟨h1, h2⟩
    exact ⟨by exact_mod_cast h1, by exact_mod_cast h2⟩

/-- The regex range `+`..`:` (codes 43 to 58) contains exactly the
digits and the six punctuation characters `+ , - . / :`. -/
theorem plus_colon_range_iff (c : Char) :
    ('+' ≤ c ∧ c ≤ ':') ↔
      (c.isDigit = true ∨ c = '+' ∨ c = ',' ∨ c = '-' ∨ c = '.' ∨ c = '/' ∨ c = ':') := by
  constructor
  · intro ⟨h1, h2⟩
    have hn1 : (43 : Nat) ≤ c.toNat := by exact_mod_cast h1
    have hn2 : c.toNat ≤ 58 := by exact_mod_cast h2
    by_cases hdig : 48 ≤ c.toNat ∧ c.toNat ≤ 57
    · exact Or.inl ((isDigit_iff c).mpr hdig)
    · have hv : c.toNat = 43 ∨ c.toNat = 44 ∨ c.toNat = 45 ∨ c.toNat = 46 ∨
          c.toNat = 47 ∨ c.toNat = 58 := by omega
      rcases hv with h | h | h | h | h | h
      · exact Or.inr (Or.inl (char_eq_of_toNat c '+' (by rw [h]; rfl)))
      · exact Or.inr (Or.inr (Or.inl (char_eq_of_toNat c ',' (by rw [h]; rfl))))
      · exact Or.inr (Or.inr (Or.inr (Or.inl (char_eq_of_toNat c '-' (by rw [h]; rfl)))))
      · exact Or.inr (Or.inr (Or.inr (Or.inr (Or.inl (char_eq_of_toNat c '.' (by rw [h]; rfl))))))
      · exact Or.inr (Or.inr (Or.inr (Or.inr (Or.inr (Or.inl (char_eq_of_toNat c '/' (by rw [h]; rfl)))))))
      · exact Or.inr (Or.inr (Or.inr (Or.inr (Or.inr (Or.inr (char_eq_of_toNat c ':' (by rw [h]; rfl)))))))
  · intro h
    rcases h with h | h | h | h | h | h | h
    · obtain ⟨h1, h2⟩ := (isDigit_iff c).mp h
      constructor
      · exact_mod_cast Nat.le_trans (by decide) h1
      · exact_mod_cast Nat.le_trans h2 (by decide)
    all_goals subst h
    all_goals exact ⟨by decide, by decide⟩

/-- Pointwise comparison of the compiled package class with the
specification set: the compiled class accepts exactly the specification
set plus the comma. -/
theorem validPackageChar_eq (c : Char) :
    isValidPackageChar c = (isSpecPackageChar c || c == ',') := by
  have hrange := plus_colon_range_iff c
  have hdg : c.isDigit = true → c.isAlphanum = true := by
    intro h
    simp [Char.isAlphanum, h]
  rw [Bool.eq_iff_iff]
  simp only [isValidPackageChar, isSpecPackageChar, isWordChar,
    Bool.or_eq_true, Bool.and_eq_true, beq_iff_eq, decide_eq_true_eq]
  rw [hrange]
  constructor
  · rintro (((((hA | hE) | hE) | hE) | (hDG | hE | hE | hE | hE | hE | hE)) | hE)
    · exact Or.inl (Or.inl (Or.inl (Or.inl (Or.inl (Or.inl (Or.inl (Or.inl hA)))))))
    · subst hE; decide
    · subst hE; decide
    · subst hE; decide
    · exact Or.inl (Or.inl (Or.inl (Or.inl (Or.inl (Or.inl (Or.inl (Or.inl (hdg hDG))))))))
    · subst hE; decide
    · subst hE; decide
    · subst hE; decide
    · subst hE; decide
    · subst hE; decide
    · subst hE; decide
    · subst hE; decide
  · rintro (((((((((hA | hE) | hE) | hE) | hE) | hE) | hE) | hE) | hE))
    · exact Or.inl (Or.inl (Or.inl (Or.inl (Or.inl hA))))
    · subst hE; decide
    · subst hE; decide
    · subst hE; decide
    · subst hE; decide
    · subst hE; decide
    · subst hE; decide
    · subst hE; decide
    · subst hE; decide

/-! ### Structural helper lemmas about the driver -/

/-- A `--`-prefixed option string is never empty. -/
theorem dashdash_ne_empty (o : String) : ("--" ++ o) ≠ "" := by
  intro h
  have h2 : ("--" ++ o).data = [] := by rw [h]
  have h3 : ('-' :: '-' :: o.data) = [] := h2
  exact List.noConfusion h3

/-- The start loop over an appended list first runs the first block and,
unless that block raised, continues from its final state. -/
theorem start_packages_append (cfg : HBConfig) (pre rest : List String) (st : HBState) :
    start_packages cfg st (pre ++ rest) =
      (if (start_packages cfg st pre).2 then start_packages cfg st pre
       else start_packages cfg (start_packages cfg st pre).1 rest) := by
  induction pre generalizing st with
  | nil => simp [start_packages]
  | cons p ps ih =>
    simp only [List.cons_append, start_packages]
    cases h0 : (set_current_package st p).2 with
    | true => simp [h0]
    | false =>
      cases h1 : (start_current_package cfg (set_current_package st p).1 p).2 with
      | true => simp [h0, h1]
      | false => simp [h0, h1, ih]

/-- The summary step never touches the spawn log. -/
theorem hb_summary_spawned (st : HBState) : (hb_summary st).spawned = st.spawned := by
  unfold hb_summary
  split <;> rfl

/-- In check mode the per-service loop raises at its first service
(either in the validating setter or in the would-be-changed
short-circuit), before any command is spawned, for every state. -/
theorem run_packages_check_no_spawn (cfg : HBConfig) (state : SvcState)
    (pkgs : List String) (hmode : cfg.check_mode = true) :
    (run_packages cfg state pkgs).1.spawned = [] := by
  rcases pkgs with _ | ⟨p, rest⟩
  · cases state <;> simp [run_packages, start_packages, stop_packages,
      restart_packages, initState]
  · cases state <;> cases hv : valid_package (some p) <;>
      simp [run_packages, start_packages, stop_packages, restart_packages,
        set_current_package, start_current_package, stop_current_package,
        restart_current_package, initState, runCommand, hv, hmode]

/-! ### Claim theorems -/

/-- C1: the claim states that a live run has `changed = true` iff some
service transitioned, and in particular that a live `started` request
for `foo` that finishes with an empty error stream reports
`changed = true`, message `Package started: foo`, `changed_count = 1`.
The code disagrees with itself here: on that very input it increments
`changed_count` to 1 and emits the message, yet leaves `changed = false`
because `_start_current_package` — unlike its stop and restart
siblings — never sets `self.changed`.  This theorem evaluates the model
at the failing input, exhibiting the divergence. -/
theorem C1_code_bug_eval :
    (hb_run quietCfg .started ["foo"]).changed = false ∧
    (hb_run quietCfg .started ["foo"]).message = "Package started: foo" ∧
    (hb_run quietCfg .started ["foo"]).changed_count = 1 ∧
    (hb_run quietCfg .started ["foo"]).failed = false := by decide

/-- C2 (counterexample): the claim says every string containing a
character outside `[\w./+\-:@]` is rejected, but the comma lies outside
that set and `valid_package` accepts it — the fragment `\+-:` of the
compiled class is a character range containing the comma. -/
theorem C2_counterexample :
    valid_package (some ",") = true ∧ (",".data.all isSpecPackageChar) = false := by
  decide

/-- C2 (amended): `valid_package` accepts exactly the strings whose
characters all lie in the claimed set `[\w./+\-:@]` EXTENDED with the
comma (the sole extra member of the range `+`..`:` outside the claimed
set, digits being already covered by `\w`). -/
theorem C2_amended_thm (s : String) :
    valid_package (some s) = s.data.all (fun c => isSpecPackageChar c || c == ',') := by
  show s.data.all isValidPackageChar = _
  induction s.data with
  | nil => rfl
  | cons c cs ih => simp [List.all_cons, ih, validPackageChar_eq c]

/-- C3 (counterexample): the claim says a malformed name in the request
prevents every `brew services` command, including for well-formed names
earlier in the list.  In a live `started` run over
`["good", "bad name!"]` the command for `good` IS spawned before the
malformed second name is reached. -/
theorem C3_counterexample :
    (hb_run quietCfg .started ["good", "bad name!"]).failed = true ∧
    (hb_run quietCfg .started ["good", "bad name!"]).spawned =
      [[brewBin, "services", "start", "good"]] := by decide

/-- C3 (amended): validation is lazy and per-service: when the services
before the malformed one complete without raising, reaching the
malformed name surfaces the configuration error and stops the run — no
command is spawned for the malformed service or any later one, but the
commands already spawned for the preceding services remain. -/
theorem C3_amended_thm (cfg : HBConfig) (pre post : List String) (bad : String)
    (hok : (start_packages cfg initState pre).2 = false)
    (hbad : valid_package (some bad) = false) :
    (start_packages cfg initState (pre ++ bad :: post)).1.spawned =
        (start_packages cfg initState pre).1.spawned ∧
    (start_packages cfg initState (pre ++ bad :: post)).1.failed = true ∧
    (start_packages cfg initState (pre ++ bad :: post)).1.message =
        "Invalid package: " ++ bad ++ "." := by
  rw [start_packages_append]
  simp only [hok, Bool.false_eq_true, if_false]
  simp [start_packages, set_current_package, hbad]

/-- C3 (witness): the amended theorem at `pre = ["good"]`,
`bad = "bad name!"`, `post = ["later"]` in a live quiet run. -/
theorem C3_amended_witness :
    (start_packages quietCfg initState (["good"] ++ "bad name!" :: ["later"])).1.spawned =
        (start_packages quietCfg initState ["good"]).1.spawned ∧
    (start_packages quietCfg initState (["good"] ++ "bad name!" :: ["later"])).1.failed = true ∧
    (start_packages quietCfg initState (["good"] ++ "bad name!" :: ["later"])).1.message =
        "Invalid package: " ++ "bad name!" ++ "." :=
  C3_amended_thm quietCfg ["good"] ["later"] "bad name!" (by decide) (by decide)

/-- C4 (counterexample): the claim says an empty-string option
contributes nothing to the spawned command, but prefixing happens
first: the empty option becomes the truthy literal `--`, which the
falsiness filter keeps, so the spawned vector contains `--`. -/
theorem C4_counterexample :
    (hb_run emptyOptCfg .started ["foo"]).spawned =
      [[brewBin, "services", "start", "--", "foo"]] := by decide

/-- C4 (amended): every option entry is prefixed with `--`, and because
the falsiness filter runs on the already-prefixed vector, no prefixed
option is ever dropped — the spawned command is exactly the brew path,
`services`, the verb, all prefixed options, and the package (given a
nonempty brew path and package name). -/
theorem C4_amended_thm (cfg : HBConfig) (opts : List String) (pkg : String)
    (hmode : cfg.check_mode = false)
    (hopts : cfg.service_options = prep_service_options opts)
    (hb : cfg.brew_path ≠ "")
    (hp : pkg ≠ "")
    (hv : valid_package (some pkg) = true) :
    (start_current_package cfg initState pkg).1.spawned =
      [cfg.brew_path :: "services" :: "start" :: (prep_service_options opts ++ [pkg])] := by
  have hcmd : verbCmd cfg "start" pkg =
      cfg.brew_path :: "services" :: "start" :: (prep_service_options opts ++ [pkg]) := by
    unfold verbCmd
    rw [hopts]
    have hshape : (([cfg.brew_path, "services", "start"] ++ prep_service_options opts) ++ [pkg]) =
        cfg.brew_path :: "services" :: "start" :: (prep_service_options opts ++ [pkg]) := by
      simp
    rw [hshape]
    apply List.filter_eq_self.mpr
    intro a ha
    simp only [List.mem_cons, List.mem_append, List.mem_singleton,
      prep_service_options, List.mem_map] at ha
    have hane : a ≠ "" := by
      rcases ha with rfl | rfl | rfl | ⟨o, _, rfl⟩ | rfl | h
      · exact hb
      · decide
      · decide
      · exact dashdash_ne_empty o
      · exact hp
      · simp at h
    exact bne_iff_ne.mpr hane
  simp only [start_current_package, hv, hmode, Bool.not_true, Bool.false_eq_true,
    if_false, runCommand]
  cases hC : (cfg.errOf (verbCmd cfg "start" pkg) == "") with
  | true => simp [hC, hcmd, initState]
  | false => simp [hC, hcmd, initState]

/-- C4 (witness): the amended theorem for the single option `verbose`
and the package `foo`. -/
theorem C4_amended_witness :
    (start_current_package verboseCfg initState "foo").1.spawned =
      [verboseCfg.brew_path :: "services" :: "start" ::
        (prep_service_options ["verbose"] ++ ["foo"])] :=
  C4_amended_thm verboseCfg ["verbose"] "foo" rfl rfl (by decide) (by decide) (by decide)

/-- C5: the claim says the status query runs the vector
`[brew_path, "services", "list"]`.  In the source the list literal is
missing the comma between `"services"` and `"list"`, so the Python
lexer concatenates them and the spawned vector is
`[brew_path, "serviceslist"]` — a two-element vector invoking a
nonexistent brew subcommand.  The claim matches the evident intent
(`brew services list`); the code is the slip.  This theorem evaluates
the modelled construction. -/
theorem C5_code_bug_eval :
    services_list_cmd brewBin = [brewBin, "serviceslist"] ∧
    services_list_cmd brewBin ≠ [brewBin, "services", "list"] := by decide

/-- C6 (counterexample): the claim says a list element containing a
colon is accepted, but list elements are validated with
`valid_brew_path`, whose class `[\w\s/.-]` has no colon: `["a:b"]` is
rejected although `a:b` matches the claimed regex `^[\w\s:/.\-]+$`. -/
theorem C6_counterexample :
    valid_path (PathArg.dirs [some "a:b"]) = false ∧ spec_dir_matches "a:b" = true := by
  decide

/-- C6 (amended): a search path given as an explicit list of strings is
accepted exactly when every directory contains only characters of the
brew-path set `[\w\s/.\-]` — the colon is NOT allowed in list elements
(it is only accepted in the colon-separated string form). -/
theorem C6_amended_thm (l : List String) :
    valid_path (PathArg.dirs (l.map some)) =
      l.all (fun s => s.data.all isValidBrewPathChar) := by
  induction l with
  | nil => rfl
  | cons s rest ih =>
    simp only [List.map_cons, valid_path, List.all_cons] at ih ⊢
    rw [show valid_brew_path (some s) = s.data.all isValidBrewPathChar from rfl]
    rw [show (List.all (List.map some rest) valid_brew_path) =
      valid_path (PathArg.dirs (rest.map some)) from rfl]
    rw [show valid_path (PathArg.dirs (rest.map some)) =
      rest.all (fun s => s.data.all isValidBrewPathChar) from ih]

/-- C7: in a live `stopped` run on `foo`, an error stream matching
`^Error: Service `foo` is not started.` is classified as a recognized
no-op — `failed = false`, `changed = false`, `unchanged_count`
incremented to 1, message `Package already stopped: foo` — while any
other nonempty error stream sets `failed = true` with the stripped
error text as the message. -/
theorem C7_stop_classification (err : String) (hne : err ≠ "") :
    (if stop_err_noop "foo" err then
       (hb_run (stopCfg err) .stopped ["foo"]).failed = false ∧
       (hb_run (stopCfg err) .stopped ["foo"]).changed = false ∧
       (hb_run (stopCfg err) .stopped ["foo"]).unchanged_count = 1 ∧
       (hb_run (stopCfg err) .stopped ["foo"]).message = "Package already stopped: foo"
     else
       (hb_run (stopCfg err) .stopped ["foo"]).failed = true ∧
       (hb_run (stopCfg err) .stopped ["foo"]).message = pyStrip err) := by
  have hbe : (err == "") = false := beq_eq_false_iff_ne.mpr hne
  have hfv : valid_package (some "foo") = true := by decide
  cases hn : stop_err_noop "foo" err with
  | true =>
    simp only [if_true]
    simp [hb_run, hb_summary, run_packages, stop_packages, set_current_package,
      stop_current_package, runCommand, stopCfg, initState, hbe, hn, hfv]
  | false =>
    simp only [Bool.false_eq_true, if_false]
    simp [hb_run, hb_summary, run_packages, stop_packages, set_current_package,
      stop_current_package, runCommand, stopCfg, initState, hbe, hn, hfv]

/-- C7 (witness): the classification at the exact diagnostic text
`Error: Service `foo` is not started.` of the specification. -/
theorem C7_witness :
    (if stop_err_noop "foo" "Error: Service `foo` is not started." then
       (hb_run (stopCfg "Error: Service `foo` is not started.") .stopped ["foo"]).failed = false ∧
       (hb_run (stopCfg "Error: Service `foo` is not started.") .stopped ["foo"]).changed = false ∧
       (hb_run (stopCfg "Error: Service `foo` is not started.") .stopped ["foo"]).unchanged_count = 1 ∧
       (hb_run (stopCfg "Error: Service `foo` is not started.") .stopped ["foo"]).message =
         "Package already stopped: foo"
     else
       (hb_run (stopCfg "Error: Service `foo` is not started.") .stopped ["foo"]).failed = true ∧
       (hb_run (stopCfg "Error: Service `foo` is not started.") .stopped ["foo"]).message =
         pyStrip "Error: Service `foo` is not started.") :=
  C7_stop_classification "Error: Service `foo` is not started." (by decide)

/-- C8: in a live `started` run over three services where the first
succeeds (empty error stream) and the second fails with a nonempty
error stream `e`, processing stops at the second service: the final
state has `failed = true`, the stripped error text of the failing
service as its message, exactly the two commands of the first two
services in the spawn log (none for the third), and the change already
applied to the first service still counted. -/
theorem C8_fail_fast (cfg : HBConfig) (p1 p2 p3 e : String)
    (hmode : cfg.check_mode = false)
    (hv1 : valid_package (some p1) = true)
    (hv2 : valid_package (some p2) = true)
    (h1 : cfg.errOf (verbCmd cfg "start" p1) = "")
    (h2 : cfg.errOf (verbCmd cfg "start" p2) = e)
    (he : e ≠ "") :
    (hb_run cfg .started [p1, p2, p3]).failed = true ∧
    (hb_run cfg .started [p1, p2, p3]).message = pyStrip e ∧
    (hb_run cfg .started [p1, p2, p3]).spawned =
      [verbCmd cfg "start" p1, verbCmd cfg "start" p2] ∧
    (hb_run cfg .started [p1, p2, p3]).changed_count = 1 := by
  have hbe : (e == "") = false := beq_eq_false_iff_ne.mpr he
  simp [hb_run, hb_summary, run_packages, start_packages, set_current_package,
    start_current_package, runCommand, initState, hv1, hv2, hmode, h1, h2, hbe]

/-- C8 (witness): three services `foo`, `bar`, `baz` in an environment
where any command mentioning `bar` fails with `boom`. -/
theorem C8_witness :
    (hb_run barFailsCfg .started ["foo", "bar", "baz"]).failed = true ∧
    (hb_run barFailsCfg .started ["foo", "bar", "baz"]).message = pyStrip "boom" ∧
    (hb_run barFailsCfg .started ["foo", "bar", "baz"]).spawned =
      [verbCmd barFailsCfg "start" "foo", verbCmd barFailsCfg "start" "bar"] ∧
    (hb_run barFailsCfg .started ["foo", "bar", "baz"]).changed_count = 1 :=
  C8_fail_fast barFailsCfg "foo" "bar" "baz" "boom" rfl (by decide) (by decide)
    (by decide) (by decide) (by decide)

/-- C9: in check mode no `brew services start|stop|restart` command is
spawned for any service list and any requested state, and the
single-service `started` request for `foo` reports `changed = true`,
`failed = false`, with the message `Package would be started: foo`. -/
theorem C9_dry_run (cfg : HBConfig) (state : SvcState) (pkgs : List String)
    (hmode : cfg.check_mode = true) :
    (hb_run cfg state pkgs).spawned = [] ∧
    (hb_run cfg .started ["foo"]).changed = true ∧
    (hb_run cfg .started ["foo"]).failed = false ∧
    (hb_run cfg .started ["foo"]).message = "Package would be started: foo" := by
  have hfv : valid_package (some "foo") = true := by decide
  refine ⟨?_, ?_, ?_, ?_⟩
  · unfold hb_run
    rw [hb_summary_spawned]
    exact run_packages_check_no_spawn cfg state pkgs hmode
  all_goals
    simp [hb_run, hb_summary, run_packages, start_packages, set_current_package,
      start_current_package, initState, hfv, hmode]

/-- C9 (witness): the dry-run theorem at a two-service `stopped`
request. -/
theorem C9_witness :
    (hb_run checkCfg .stopped ["a", "b"]).spawned = [] ∧
    (hb_run checkCfg .started ["foo"]).changed = true ∧
    (hb_run checkCfg .started ["foo"]).failed = false ∧
    (hb_run checkCfg .started ["foo"]).message = "Package would be started: foo" :=
  C9_dry_run checkCfg .stopped ["a", "b"] rfl

/-- C10: in check mode a request with a valid first service and any
further services behaves exactly like the singleton request for the
first service: the would-be-changed report raises out of the loop, so
the later services are never examined (not even validated), both
counters stay 0, no summary replaces the message, no command is
spawned, and the final message names only the first service. -/
theorem C10_check_first_only (cfg : HBConfig) (p1 : String) (rest : List String)
    (hmode : cfg.check_mode = true)
    (hv : valid_package (some p1) = true) :
    hb_run cfg .started (p1 :: rest) = hb_run cfg .started [p1] ∧
    (hb_run cfg .started (p1 :: rest)).message = "Package would be started: " ++ p1 ∧
    (hb_run cfg .started (p1 :: rest)).changed_count = 0 ∧
    (hb_run cfg .started (p1 :: rest)).unchanged_count = 0 ∧
    (hb_run cfg .started (p1 :: rest)).failed = false ∧
    (hb_run cfg .started (p1 :: rest)).changed = true ∧
    (hb_run cfg .started (p1 :: rest)).spawned = [] := by
  have key : ∀ l : List String, run_packages cfg .started (p1 :: l) =
      ({ failed := false, changed := true, changed_count := 0, unchanged_count := 0,
         message := "Package would be started: " ++ p1, spawned := [] }, true) := by
    intro l
    simp [run_packages, start_packages, set_current_package,
      start_current_package, initState, hv, hmode]
  have hrun : ∀ l : List String, hb_run cfg .started (p1 :: l) =
      { failed := false, changed := true, changed_count := 0, unchanged_count := 0,
        message := "Package would be started: " ++ p1, spawned := [] } := by
    intro l
    unfold hb_run
    rw [key l]
    rfl
  refine ⟨?_, ?_, ?_, ?_, ?_, ?_, ?_⟩
  · rw [hrun rest, hrun []]
  all_goals rw [hrun rest]

/-- C10 (witness): check mode over `["foo", "bad name!"]` — note the
malformed second name is never validated. -/
theorem C10_witness :
    hb_run checkCfg .started ("foo" :: ["bad name!"]) = hb_run checkCfg .started ["foo"] ∧
    (hb_run checkCfg .started ("foo" :: ["bad name!"])).message = "Package would be started: " ++ "foo" ∧
    (hb_run checkCfg .started ("foo" :: ["bad name!"])).changed_count = 0 ∧
    (hb_run checkCfg .started ("foo" :: ["bad name!"])).unchanged_count = 0 ∧
    (hb_run checkCfg .started ("foo" :: ["bad name!"])).failed = false ∧
    (hb_run checkCfg .started ("foo" :: ["bad name!"])).changed = true ∧
    (hb_run checkCfg .started ("foo" :: ["bad name!"])).spawned = [] :=
  C10_check_first_only checkCfg "foo" ["bad name!"] rfl (by decide)

end HomebrewServices
